import Mathlib

/-!
Verification development for the gazelle tracker client
(`src/gazelle/api_classes.py`).

The Python module is shallowly embedded below.  External collaborators
(the HTTP transport `requests.Session`, the JSON parser, `hashlib.sha256`,
`base64.b64decode`, the clock) are modelled as explicit parameters: a
transport is a function from an issued request envelope to a response,
a hash is a function from bytes to a hex string, and so on.  Everything
the module itself computes (response classification, endpoint routing,
rate limiting arithmetic, cookie validation, the upload orchestration of
each tracker variant) is translated directly from the source.
-/

set_option autoImplicit false

namespace Gazelle

/-- A Python value, as far as this client manipulates them: JSON scalars,
dicts (assoc lists, in insertion order), raw byte strings and `None`. -/
inductive PyVal where
  | str : String → PyVal
  | int : Int → PyVal
  | bool : Bool → PyVal
  | null : PyVal
  | dict : List (String × PyVal) → PyVal
  | bytes : List Nat → PyVal
deriving Repr

/-- Python `d.get(key)` on an assoc list: the first binding of `key`, if any. -/
def lookupAssoc {α : Type} : List (String × α) → String → Option α
  | [], _ => Option.none
  | (k, v) :: rest, key => if k = key then Option.some v else lookupAssoc rest key

/-- Python `d[key] = v` on an assoc list (Python dict update: an existing key keeps
its position, a new key is appended). -/
def updateAssoc {α : Type} : List (String × α) → String → α → List (String × α)
  | [], key, v => [(key, v)]
  | (k, w) :: rest, key, v =>
    if k = key then (key, v) :: rest else (k, w) :: updateAssoc rest key v

/-- Python `del d[key]` on an assoc list (removes every binding of the key; a
Python dict holds at most one). -/
def removeAssoc {α : Type} : List (String × α) → String → List (String × α)
  | [], _ => []
  | (k, w) :: rest, key =>
    if k = key then removeAssoc rest key else (k, w) :: removeAssoc rest key

/-- Python truthiness of the values this client tests with `if`. -/
def pyTruthy : PyVal → Bool
  | .str s => s ≠ ""
  | .int n => n ≠ 0
  | .bool b => b
  | .null => false
  | .dict d => !d.isEmpty
  | .bytes b => !b.isEmpty

/-- Python `str(...)` as used inside the f-strings of the module.  Only
scalar values ever reach an f-string in the client (torrent and group ids,
which are ints or `None`); the container cases give the delimiters only. -/
def pyStr : PyVal → String
  | .str s => s
  | .int n => toString n
  | .bool b => if b then "True" else "False"
  | .null => "None"
  | .dict _ => "\x7b...\x7d"
  | .bytes _ => "b..."

/-- Substring test on char lists (`needle in haystack` for Python strings). -/
def hasSubList (needle : List Char) : List Char → Bool
  | [] => needle.isEmpty
  | c :: cs => needle.isPrefixOf (c :: cs) || hasSubList needle cs

/-- The test `needle in haystack` for Python strings. -/
def hasSub (needle haystack : String) : Bool :=
  hasSubList needle.data haystack.data

/-- A cookie as held by the `http.cookiejar` jar: a name and an optional
expiry timestamp (seconds). -/
structure Cookie where
  name : String
  expires : Option ℚ
deriving Repr, DecidableEq

/-- The raw transport response (`requests.Response`): status code, declared
content type, body bytes, the result of attempting to parse the body as
JSON (the parser is an external collaborator, so its verdict travels with
the response), the final URL after redirects, the body text and the
cookies the response set on the session's jar. -/
structure HttpResponse where
  statusCode : Nat
  contentType : String
  content : List Nat
  jsonBody : Option (List (String × PyVal))
  url : String
  text : String
  setCookies : List Cookie
deriving Repr

/-- The errors the module can raise.  `requestFailure` is the module's own
`RequestFailure` exception and carries the Python value it was constructed
with; `httpError` is `requests.HTTPError`; `connectionError` stands for the
other transport-level exceptions; `keyError` is a Python `KeyError` from
`d[k]` on a missing key; `attributeError` from attribute access on a value
lacking it.  The two `assert` statements of the module are rendered with
the spec taxonomy names: `authenticationError` (login yields no session
cookie), `integrityError` (riplog checksum mismatch). -/
inductive ApiError where
  | requestFailure : PyVal → ApiError
  | httpError : Nat → ApiError
  | connectionError : ApiError
  | keyError : String → ApiError
  | attributeError : String → ApiError
  | authenticationError : ApiError
  | integrityError : ApiError
deriving Repr

/-- A request envelope as handed to the transport by `BaseApi.request`:
method, full URL, query params (kwargs), optional form data, optional
files. -/
structure Issued where
  method : String
  url : String
  params : List (String × PyVal)
  dataBody : Option (List (String × PyVal))
  files : Option (List String)
deriving Repr

/-- Truthiness of the optional `data` argument (a dict or `None`). -/
def optDictTruthy : Option (List (String × PyVal)) → Bool
  | Option.none => false
  | Option.some d => !d.isEmpty

/-- Truthiness of the optional `files` argument (a list or `None`). -/
def optFilesTruthy : Option (List String) → Bool
  | Option.none => false
  | Option.some fs => !fs.isEmpty

/-- The rule `req_method = 'POST' if data or files else 'GET'` of
`BaseApi.request`. -/
def reqMethod (data : Option (List (String × PyVal))) (files : Option (List String)) : String :=
  if optDictTruthy data || optFilesTruthy files then "POST" else "GET"

/-- The envelope `BaseApi.request` hands to the transport:
`url = self.url + url_suffix + '.php'`, method chosen by `reqMethod`. -/
def mkEnvelope (baseUrl urlSuffix : String) (data : Option (List (String × PyVal)))
    (files : Option (List String)) (kwargs : List (String × PyVal)) : Issued :=
  { method := reqMethod data files
    url := baseUrl ++ urlSuffix ++ ".php"
    params := kwargs
    dataBody := data
    files := files }

/-- Python `v == s` for an optional value against a string literal: true
exactly when the value is that string. -/
def isStrEq (v : Option PyVal) (s : String) : Bool :=
  match v with
  | Option.some (.str t) => t = s
  | _ => false

/-- Response classification of `BaseApi.request` (the try/except around
`r.json()` and the `status` dispatch):
if the body parsed, `status == 'success'` returns `r_dict['response']`,
`status == 'failure'` raises `RequestFailure(r_dict['error'])`, anything
else raises `RequestFailure(r_dict)`; if the body did not parse, a
bittorrent content type returns the raw bytes, else
`RequestFailure('no json, no torrent')` is raised. -/
def classify (r : HttpResponse) : Except ApiError PyVal :=
  match r.jsonBody with
  | Option.some d =>
    let status := lookupAssoc d "status"
    if isStrEq status "success" then
      match lookupAssoc d "response" with
      | Option.some v => .ok v
      | Option.none => .error (.keyError "response")
    else if isStrEq status "failure" then
      match lookupAssoc d "error" with
      | Option.some e => .error (.requestFailure e)
      | Option.none => .error (.keyError "error")
    else .error (.requestFailure (.dict d))
  | Option.none =>
    if hasSub "application/x-bittorrent" r.contentType then .ok (.bytes r.content)
    else .error (.requestFailure (.str "no json, no torrent"))

/-- One full `BaseApi.request` round trip given a transport: dispatch the
envelope, propagate transport errors unchanged, classify the response. -/
def doRequest (transport : Issued → Except ApiError HttpResponse) (env : Issued) :
    Except ApiError PyVal :=
  match transport env with
  | .error e => .error e
  | .ok r => classify r

/-- Routing of `KeyApi.request`: every action routes through the `ajax` path with
`action=<endpoint>` merged into the kwargs. -/
def keyEnvelope (baseUrl action : String) (data : Option (List (String × PyVal)))
    (files : Option (List String)) (kwargs : List (String × PyVal)) : Issued :=
  mkEnvelope baseUrl "ajax" data files (updateAssoc kwargs "action" (.str action))

/-- Routing of `CookieApi.request`: `upload` and `login` go to dedicated paths with the
kwargs untouched; every other action routes through `ajax` with
`action=<endpoint>` attached. -/
def cookieEnvelope (baseUrl action : String) (data : Option (List (String × PyVal)))
    (files : Option (List String)) (kwargs : List (String × PyVal)) : Issued :=
  if action = "upload" ∨ action = "login" then
    mkEnvelope baseUrl action data files kwargs
  else
    mkEnvelope baseUrl "ajax" data files (updateAssoc kwargs "action" (.str action))

/-! ## Rate limiter (`BaseApi._rate_limit` and the `last_x_reqs` deque) -/

/-- The sleep performed by `_rate_limit` given the oldest retained
timestamp and the current time: `t = now - oldest; if t <= 10: sleep(10 - t)`. -/
def sleepAmount (oldest now : ℚ) : ℚ :=
  if now - oldest ≤ 10 then 10 - (now - oldest) else 0

/-- The moment the request is actually dispatched: the current time plus
whatever `_rate_limit` slept. -/
def sendMoment (oldest now : ℚ) : ℚ :=
  now + sleepAmount oldest now

/-- Python `deque.append` with `maxlen = cap`: append on the right, evicting from
the left once the capacity is reached. -/
def dequeAppend (cap : ℕ) (l : List ℚ) (x : ℚ) : List ℚ :=
  if cap < (l ++ [x]).length then (l ++ [x]).drop ((l ++ [x]).length - cap) else l ++ [x]

/-- The deque contents after recording the given request timestamps, in
order, starting from the seed `deque([.0], maxlen=cap)`. -/
def statesAfter (cap : ℕ) (recs : List ℚ) : List ℚ :=
  recs.foldl (dequeAppend cap) [0]

/-- A serial run of requests through one client: the i-th event is
`(now, done)` — the clock when `_rate_limit` reads it, and the timestamp
`time.time()` recorded into the deque after the transport call returns.
`dispatchMoment` is the send moment of the i-th request of such a run. -/
def dispatchMoment (cap : ℕ) (events : List (ℚ × ℚ)) (i : ℕ) : ℚ :=
  sendMoment ((statesAfter cap ((events.take i).map Prod.snd)).headD 0)
    ((events.map Prod.fst).getD i 0)

/-- A run is serial when every recorded timestamp is at least the moment
its request was dispatched. -/
def SerialRun (cap : ℕ) (events : List (ℚ × ℚ)) : Prop :=
  ∀ i, i < events.length → dispatchMoment cap events i ≤ ((events.map Prod.snd).getD i 0)

/-! ## `RedApi` upload orchestration -/

/-- Python `r.get(k)` where `r` must be a dict (`AttributeError` otherwise). -/
def pyGet (r : PyVal) (k : String) : Except ApiError PyVal :=
  match r with
  | .dict d => .ok ((lookupAssoc d k).getD .null)
  | _ => .error (.attributeError "get")

/-- The handler `RedApi.upl_response_handler`: `return r.get('torrentid'), r.get('groupid')`. -/
def redUplResponseHandler (r : PyVal) : Except ApiError (PyVal × PyVal) :=
  match pyGet r "torrentid", pyGet r "groupid" with
  | .ok t, .ok g => .ok (t, g)
  | .error e, _ => .error e
  | _, .error e => .error e

/-- The envelope of the primary upload request of `RedApi` (through
`KeyApi.request 'upload'`), after the `unknown` key has been handled. -/
def redUploadEnv (baseUrl : String) (data : List (String × PyVal))
    (files : Option (List String)) : Issued :=
  keyEnvelope baseUrl "upload" (Option.some data) files []

/-- The envelope of the follow-up `torrentedit` request of `RedApi`:
`self.request('torrentedit', id=torrent_id, data={'unknown': True})`. -/
def redEditEnv (baseUrl : String) (torrentId : PyVal) : Issued :=
  keyEnvelope baseUrl "torrentedit" (Option.some [("unknown", .bool true)])
    Option.none [("id", torrentId)]

/-- Whether an exception escaping the follow-up edit request is caught by
`except (RequestFailure, requests.HTTPError)`. -/
def caughtByEditHandler : ApiError → Bool
  | .requestFailure _ => true
  | .httpError _ => true
  | _ => false

/-- The orchestration of `RedApi._uploader`: strip a truthy `unknown` flag from the data, run the
primary upload, read the ids out of the success payload, then (when the
flag was set) attempt the best-effort `torrentedit` follow-up, swallowing
`RequestFailure` and `requests.HTTPError`, and return
`(torrent_id, group_id, url + f"torrents.php?id={group_id}&torrentid={torrent_id}")`.
The first component of the result lists the envelopes handed to the
transport, in order. -/
def redUploader (baseUrl : String) (transport : Issued → Except ApiError HttpResponse)
    (data : List (String × PyVal)) (files : Option (List String)) :
    List Issued × Except ApiError (PyVal × PyVal × String) :=
  let unknown := pyTruthy ((lookupAssoc data "unknown").getD .null)
  let data1 := if unknown then removeAssoc data "unknown" else data
  let env1 := redUploadEnv baseUrl data1 files
  match doRequest transport env1 with
  | .error e => ([env1], .error e)
  | .ok r =>
    match redUplResponseHandler r with
    | .error e => ([env1], .error e)
    | .ok (torrentId, groupId) =>
      let viewUrl :=
        baseUrl ++ "torrents.php?id=" ++ pyStr groupId ++ "&torrentid=" ++ pyStr torrentId
      if unknown then
        let env2 := redEditEnv baseUrl torrentId
        match doRequest transport env2 with
        | .error e =>
          if caughtByEditHandler e then ([env1, env2], .ok (torrentId, groupId, viewUrl))
          else ([env1, env2], .error e)
        | .ok _ => ([env1, env2], .ok (torrentId, groupId, viewUrl))
      else ([env1], .ok (torrentId, groupId, viewUrl))

/-! ## `CookieApi` authentication -/

/-- Python `http.cookiejar.Cookie.is_expired(now)`:
`self.expires is not None and self.expires <= now`. -/
def cookieIsExpired (c : Cookie) (now : ℚ) : Bool :=
  match c.expires with
  | Option.none => false
  | Option.some e => e ≤ now

/-- The check of `CookieApi._load_cookie`: `jar.load()` (its outcome — `None` when the
file is missing or malformed — is the `loadResult` parameter), then pick
the first cookie named `session` and require it unexpired; any of
`FileNotFoundError`, `LoadError`, `IndexError`, `AssertionError` yields
`False`. -/
def loadCookie (loadResult : Option (List Cookie)) (now : ℚ) : Bool :=
  match loadResult with
  | Option.none => false
  | Option.some jar =>
    match (jar.filter (fun c => c.name = "session")).head? with
    | Option.none => false
    | Option.some c => !cookieIsExpired c now

/-- The login envelope of `CookieApi._login`
(`self.request('login', data=...)`, routed to the dedicated `login` path). -/
def loginEnv (baseUrl username password : String) : Issued :=
  cookieEnvelope baseUrl "login"
    (Option.some
      [("username", .str username), ("password", .str password), ("keeplogged", .str "1")])
    Option.none []

/-- The login of `CookieApi._login`: obtain `(username, password)` from the supplied
credential source, clear the jar, issue the login request (whose
classification outcome propagates if it raises), then require a `session`
cookie in the jar — modelled as the response's set cookies, since the jar
was just cleared — failing with the spec's `AuthenticationError` (an
`assert` in the code) otherwise; on success `jar.save()` persists it.
The result carries the final jar and whether it was persisted. -/
def cookieLogin (baseUrl : String) (transport : Issued → Except ApiError HttpResponse)
    (credSource : Unit → String × String) :
    Issued × Except ApiError (List Cookie × Bool) :=
  let creds := credSource ()
  let env := loginEnv baseUrl creds.1 creds.2
  match transport env with
  | .error e => (env, .error e)
  | .ok r =>
    match classify r with
    | .error e => (env, .error e)
    | .ok _ =>
      if (r.setCookies.filter (fun c => c.name = "session")).isEmpty then
        (env, .error .authenticationError)
      else (env, .ok (r.setCookies, true))

/-- The flow of `CookieApi.authenticate`: install the tracker-named jar, and if
`_load_cookie()` fails, `_login`.  The first component lists the envelopes
handed to the transport (empty means no network call). -/
def cookieAuthenticate (baseUrl : String) (transport : Issued → Except ApiError HttpResponse)
    (credSource : Unit → String × String) (loadResult : Option (List Cookie)) (now : ℚ) :
    List Issued × Except ApiError (List Cookie × Bool) :=
  if loadCookie loadResult now then ([], .ok (loadResult.getD [], false))
  else
    let (env, res) := cookieLogin baseUrl transport credSource
    ([env], res)

/-! ## `CookieApi` upload -/

/-- The pattern `re.search` looks for in the failure branch of
`CookieApi.upl_response_handler`. -/
def warningOpenTag : List Char :=
  ("<p style=\x22color: red;text-align:center;\x22>").data

/-- The closing delimiter of the warning pattern. -/
def warningCloseTag : List Char :=
  ("</p>").data

/-- The non-greedy `(.+?)</p>` part: the shortest non-empty newline-free
prefix followed immediately by `</p>`. -/
def warningMiddle (acc : List Char) : List Char → Option (List Char)
  | [] => Option.none
  | c :: cs =>
    if c = '\n' then Option.none
    else if warningCloseTag.isPrefixOf cs then Option.some (acc ++ [c])
    else warningMiddle (acc ++ [c]) cs

/-- The search `re.search(r'<p style="color: red;text-align:center;">(.+?)</p>', text)`:
the captured group at the leftmost position where the whole pattern
matches. -/
def searchWarning : List Char → Option (List Char)
  | [] => Option.none
  | c :: cs =>
    if warningOpenTag.isPrefixOf (c :: cs) then
      match warningMiddle [] ((c :: cs).drop warningOpenTag.length) with
      | Option.some m => Option.some m
      | Option.none => searchWarning cs
    else searchWarning cs

/-- The handler `CookieApi.upl_response_handler` as written, over the final URL and the
body text of a raw response: a URL without `torrents.php` raises
`RequestFailure` with the matched warning (or the raw URL), otherwise the
URL is returned. -/
def cookieUplResponseHandler (url text : String) : Except ApiError String :=
  if !hasSub "torrents.php" url then
    .error (.requestFailure (.str
      (match searchWarning text.data with
       | Option.some w => String.mk w
       | Option.none => url)))
  else .ok url

/-- The upload envelope issued by `CookieApi._uploader` (dedicated `upload`
path, `submit` flag added to the data). -/
def cookieUploadEnv (baseUrl : String) (data : List (String × PyVal))
    (files : Option (List String)) : Issued :=
  cookieEnvelope baseUrl "upload" (Option.some (updateAssoc data "submit" (.bool true))) files []

/-- The override `CookieApi._uploader` composed with the inherited `BaseApi._uploader`:
set `data['submit'] = True`, run `self.request('upload', ...)` (whose
classification outcome is what `upl_response_handler` receives), apply the
handler, and return `None` (the override discards the handler's value).
The handler immediately reads `.url` off the classified value, which no
classified value possesses, so reaching it raises `AttributeError`. -/
def cookieUploader (baseUrl : String) (transport : Issued → Except ApiError HttpResponse)
    (data : List (String × PyVal)) (files : Option (List String)) :
    Issued × Except ApiError PyVal :=
  let env := cookieUploadEnv baseUrl data files
  match doRequest transport env with
  | .error e => (env, .error e)
  | .ok _ => (env, .error (.attributeError "url"))

/-! ## `OpsApi.get_riplog` -/

/-- Python `r[k]` on a dict (`KeyError` when absent, `TypeError`-like otherwise). -/
def pyIndex (r : PyVal) (k : String) : Except ApiError PyVal :=
  match r with
  | .dict d =>
    match lookupAssoc d k with
    | Option.some v => .ok v
    | Option.none => .error (.keyError k)
  | _ => .error (.attributeError "getitem")

/-- The envelope of `self.request('riplog', id=tor_id, logid=log_id)`
(through `KeyApi.request`). -/
def riplogEnv (baseUrl : String) (torId logId : Int) : Issued :=
  keyEnvelope baseUrl "riplog" Option.none Option.none
    [("id", .int torId), ("logid", .int logId)]

/-- The fetch of `OpsApi.get_riplog`: request the log, base64-decode `r['log']`, hash it
with SHA-256 (decoder and hash are external collaborators, passed as
functions), `assert` the hex digest equals `r['log_sha256']` — rendered
with the spec's `IntegrityError` — and return the bytes. -/
def getRiplog (baseUrl : String) (transport : Issued → Except ApiError HttpResponse)
    (b64decode : String → List Nat) (sha256hex : List Nat → String)
    (torId logId : Int) : Issued × Except ApiError (List Nat) :=
  let env := riplogEnv baseUrl torId logId
  match doRequest transport env with
  | .error e => (env, .error e)
  | .ok r =>
    match pyIndex r "log" with
    | .error e => (env, .error e)
    | .ok logVal =>
      match logVal with
      | .str s =>
        let logBytes := b64decode s
        let logChecksum := sha256hex logBytes
        match pyIndex r "log_sha256" with
        | .error e => (env, .error e)
        | .ok expected =>
          match expected with
          | .str c => if logChecksum = c then (env, .ok logBytes) else (env, .error .integrityError)
          | _ => (env, .error .integrityError)
      | _ => (env, .error (.attributeError "b64decode"))

example :
    classify
      { statusCode := 200, contentType := "application/json", content := [],
        jsonBody := Option.some
          [("status", .str "success"), ("response", .dict [("a", .int 1)])],
        url := "u", text := "t", setCookies := [] } = .ok (.dict [("a", .int 1)]) := rfl

example :
    classify
      { statusCode := 200, contentType := "application/json", content := [],
        jsonBody := Option.some [("status", .str "failure"), ("error", .str "bad")],
        url := "u", text := "t", setCookies := [] } =
      .error (.requestFailure (.str "bad")) := rfl

example :
    classify
      { statusCode := 200, contentType := "application/x-bittorrent", content := [1, 2, 255],
        jsonBody := Option.none, url := "u", text := "t", setCookies := [] } =
      .ok (.bytes [1, 2, 255]) := rfl

example :
    classify
      { statusCode := 200, contentType := "text/html", content := [],
        jsonBody := Option.none, url := "https://site/torrents.php?id=7", text := "<html>",
        setCookies := [] } =
      .error (.requestFailure (.str "no json, no torrent")) := rfl

/-! ## Sample transports and responses used to exercise the definitions -/

/-- A success envelope carrying an OPS rip log and its checksum field. -/
def opsLogResponse : HttpResponse :=
  { statusCode := 200, contentType := "application/json", content := [],
    jsonBody := Option.some
      [("status", .str "success"),
        ("response", .dict [("log", .str "QUJD"), ("log_sha256", .str "h256")])],
    url := "u", text := "t", setCookies := [] }

/-- A login response that classifies as a success envelope but sets no
cookie at all. -/
def loginRespNoCookie : HttpResponse :=
  { statusCode := 200, contentType := "application/json", content := [],
    jsonBody := Option.some [("status", .str "success"), ("response", .null)],
    url := "u", text := "t", setCookies := [] }

/-- A login response that classifies as a success envelope and sets a
session cookie. -/
def loginRespWithCookie : HttpResponse :=
  { statusCode := 200, contentType := "application/json", content := [],
    jsonBody := Option.some [("status", .str "success"), ("response", .null)],
    url := "u", text := "t",
    setCookies := [{ name := "session", expires := Option.some (99 : ℚ) }] }

/-- A RED upload success envelope with `torrentid=42, groupid=7`. -/
def redUplResponse : HttpResponse :=
  { statusCode := 200, contentType := "application/json", content := [],
    jsonBody := Option.some
      [("status", .str "success"),
        ("response", .dict [("torrentid", .int 42), ("groupid", .int 7)])],
    url := "u", text := "t", setCookies := [] }

/-- A transport that answers the one-parameter primary upload envelope with
the RED success envelope and fails every other request (in particular the
two-parameter `torrentedit` follow-up) with a `RequestFailure`. -/
def redEditFailTransport : Issued → Except ApiError HttpResponse :=
  fun env =>
    if env.params.length = 1 then .ok redUplResponse
    else .error (.requestFailure (.str "edit failed"))

/-! ## Helper lemmas -/

/-- A value that is not the given string fails the `==` test. -/
theorem isStrEq_eq_false (v : Option PyVal) (s : String)
    (h : v ≠ Option.some (.str s)) : isStrEq v s = false := by
  cases v with
  | none => rfl
  | some p =>
    cases p with
    | str t =>
      have ht : t ≠ s := by
        intro he
        exact h (by rw [he])
      simp [isStrEq, ht]
    | int n => rfl
    | bool b => rfl
    | null => rfl
    | dict d => rfl
    | bytes b => rfl

/-- Updating a key makes the pair a member of the assoc list. -/
theorem mem_updateAssoc {α : Type} (l : List (String × α)) (k : String) (v : α) :
    (k, v) ∈ updateAssoc l k v := by
  induction l with
  | nil => simp [updateAssoc]
  | cons hd tl ih =>
    rcases hd with ⟨k1, v1⟩
    by_cases h : k1 = k
    · simp [updateAssoc, h]
    · simp only [updateAssoc, if_neg h]
      exact List.mem_cons_of_mem _ ih

/-! ## Claims -/

/-- C2: on a response whose body parses as structured data, classification
returns the `response` field when `status` is `"success"`, raises
`RequestFailure` carrying the `error` field when `status` is `"failure"`,
and raises a failure carrying the whole parsed body for any other
`status`; on a body that does not parse but whose content type indicates a
torrent payload, the raw body bytes are returned unchanged. -/
theorem response_classification :
    (∀ (r : HttpResponse) (d : List (String × PyVal)) (v : PyVal),
      r.jsonBody = Option.some d →
      lookupAssoc d "status" = Option.some (.str "success") →
      lookupAssoc d "response" = Option.some v →
      classify r = .ok v) ∧
    (∀ (r : HttpResponse) (d : List (String × PyVal)) (e : PyVal),
      r.jsonBody = Option.some d →
      lookupAssoc d "status" = Option.some (.str "failure") →
      lookupAssoc d "error" = Option.some e →
      classify r = .error (.requestFailure e)) ∧
    (∀ (r : HttpResponse) (d : List (String × PyVal)),
      r.jsonBody = Option.some d →
      lookupAssoc d "status" ≠ Option.some (.str "success") →
      lookupAssoc d "status" ≠ Option.some (.str "failure") →
      classify r = .error (.requestFailure (.dict d))) ∧
    (∀ r : HttpResponse,
      r.jsonBody = Option.none →
      hasSub "application/x-bittorrent" r.contentType = true →
      classify r = .ok (.bytes r.content)) := by
  refine ⟨?_, ?_, ?_, ?_⟩
  · intro r d v h1 h2 h3
    simp [classify, h1, h2, h3, isStrEq]
  · intro r d e h1 h2 h3
    simp [classify, h1, h2, h3, isStrEq]
  · intro r d h1 h2 h3
    simp [classify, h1, isStrEq_eq_false _ _ h2, isStrEq_eq_false _ _ h3]
  · intro r h1 h2
    simp only [classify, h1, h2, if_true]

/-- Witness for C2 at the spec's example inputs. -/
theorem response_classification_witness :
    classify
      { statusCode := 200, contentType := "application/json", content := [],
        jsonBody := Option.some
          [("status", .str "success"), ("response", .dict [("a", .int 1)])],
        url := "u", text := "t", setCookies := [] } = .ok (.dict [("a", .int 1)]) ∧
    classify
      { statusCode := 200, contentType := "application/json", content := [],
        jsonBody := Option.some [("status", .str "failure"), ("error", .str "bad")],
        url := "u", text := "t", setCookies := [] } =
      .error (.requestFailure (.str "bad")) ∧
    classify
      { statusCode := 200, contentType := "application/json", content := [],
        jsonBody := Option.some [("status", .str "partial"), ("error", .str "bad")],
        url := "u", text := "t", setCookies := [] } =
      .error (.requestFailure (.dict [("status", .str "partial"), ("error", .str "bad")])) ∧
    classify
      { statusCode := 200, contentType := "application/x-bittorrent", content := [1, 2, 255],
        jsonBody := Option.none, url := "u", text := "t", setCookies := [] } =
      .ok (.bytes [1, 2, 255]) := by
  refine ⟨?_, ?_, ?_, ?_⟩
  · exact response_classification.1 _ _ _ rfl rfl rfl
  · exact response_classification.2.1 _ _ _ rfl rfl rfl
  · exact response_classification.2.2.1 _ _ rfl (by simp [lookupAssoc]) (by simp [lookupAssoc])
  · exact response_classification.2.2.2 _ rfl rfl

/-- C3 (code bug): the claim says a response that neither parses nor is a
torrent payload yields, absent a transport-level HTTP failure, an opaque
outcome carrying the final URL and body text, and never a tracker-style
`RequestFailure`.  The code instead raises
`RequestFailure('no json, no torrent')` unconditionally for such
responses — here evaluated on a plain successful HTML redirect response. -/
theorem opaque_redirect_classification_bug :
    classify
      { statusCode := 200, contentType := "text/html", content := [],
        jsonBody := Option.none, url := "https://example/torrents.php?id=7",
        text := "<html></html>", setCookies := [] } =
      .error (.requestFailure (.str "no json, no torrent")) := rfl

/-- C10: the HTTP method handed to the transport is chosen by
`BaseApi.request` from its arguments alone — `POST` exactly when the data
or the files argument is truthy (provided and non-empty), `GET` otherwise —
and both the key and the cookie strategy inherit this rule. -/
theorem request_method_rule (baseUrl urlSuffix action : String)
    (data : Option (List (String × PyVal))) (files : Option (List String))
    (kwargs : List (String × PyVal)) :
    ((mkEnvelope baseUrl urlSuffix data files kwargs).method = "POST" ↔
      (optDictTruthy data = true ∨ optFilesTruthy files = true)) ∧
    ((mkEnvelope baseUrl urlSuffix data files kwargs).method = "GET" ↔
      ¬(optDictTruthy data = true ∨ optFilesTruthy files = true)) ∧
    (keyEnvelope baseUrl action data files kwargs).method =
      (mkEnvelope baseUrl urlSuffix data files kwargs).method ∧
    (cookieEnvelope baseUrl action data files kwargs).method =
      (mkEnvelope baseUrl urlSuffix data files kwargs).method := by
  have hkey : (keyEnvelope baseUrl action data files kwargs).method = reqMethod data files := rfl
  have hcook : (cookieEnvelope baseUrl action data files kwargs).method = reqMethod data files := by
    unfold cookieEnvelope
    split <;> rfl
  have hmk : (mkEnvelope baseUrl urlSuffix data files kwargs).method = reqMethod data files := rfl
  cases hb : (optDictTruthy data || optFilesTruthy files) with
  | false =>
    have hm : reqMethod data files = "GET" := by simp [reqMethod, hb]
    have hno : ¬(optDictTruthy data = true ∨ optFilesTruthy files = true) := by
      intro hc
      rcases hc with h | h <;> rw [h] at hb <;> simp at hb
    refine ⟨?_, ?_, hkey.trans hmk.symm, hcook.trans hmk.symm⟩
    · rw [hmk, hm]
      exact ⟨fun hc => absurd hc (by decide), fun hc => absurd hc hno⟩
    · rw [hmk, hm]
      exact ⟨fun _ => hno, fun _ => rfl⟩
  | true =>
    have hm : reqMethod data files = "POST" := by simp [reqMethod, hb]
    have hd : optDictTruthy data = true ∨ optFilesTruthy files = true := by simpa using hb
    refine ⟨?_, ?_, hkey.trans hmk.symm, hcook.trans hmk.symm⟩
    · rw [hmk, hm]
      exact ⟨fun _ => hd, fun _ => rfl⟩
    · rw [hmk, hm]
      exact ⟨fun hc => absurd hc (by decide), fun hc => absurd hd hc⟩

/-- C8: the token strategy routes every endpoint through the `ajax` path
with `action=<endpoint>` attached; the session strategy routes `upload`
and `login` to dedicated paths with the kwargs untouched, and every other
endpoint through the same ajax-with-action convention. -/
theorem endpoint_routing (baseUrl action : String)
    (data : Option (List (String × PyVal))) (files : Option (List String))
    (kwargs : List (String × PyVal)) :
    ((keyEnvelope baseUrl action data files kwargs).url = baseUrl ++ "ajax" ++ ".php" ∧
      ("action", PyVal.str action) ∈ (keyEnvelope baseUrl action data files kwargs).params) ∧
    (action = "upload" ∨ action = "login" →
      (cookieEnvelope baseUrl action data files kwargs).url = baseUrl ++ action ++ ".php" ∧
      (cookieEnvelope baseUrl action data files kwargs).params = kwargs) ∧
    (action ≠ "upload" → action ≠ "login" →
      (cookieEnvelope baseUrl action data files kwargs).url = baseUrl ++ "ajax" ++ ".php" ∧
      ("action", PyVal.str action) ∈ (cookieEnvelope baseUrl action data files kwargs).params) := by
  refine ⟨⟨rfl, mem_updateAssoc kwargs "action" (.str action)⟩, ?_, ?_⟩
  · intro h
    unfold cookieEnvelope
    rw [if_pos h]
    exact ⟨rfl, rfl⟩
  · intro h1 h2
    unfold cookieEnvelope
    rw [if_neg (by simp [h1, h2])]
    exact ⟨rfl, mem_updateAssoc kwargs "action" (.str action)⟩

/-- Witness for C8 at the endpoints `upload` and `torrent`. -/
theorem endpoint_routing_witness :
    ((keyEnvelope "https://red/" "torrent" Option.none Option.none [("id", .int 5)]).url =
        "https://red/ajax.php" ∧
      ("action", PyVal.str "torrent") ∈
        (keyEnvelope "https://red/" "torrent" Option.none Option.none [("id", .int 5)]).params) ∧
    ((cookieEnvelope "https://nwcd/" "upload" Option.none Option.none []).url =
        "https://nwcd/upload.php" ∧
      (cookieEnvelope "https://nwcd/" "upload" Option.none Option.none []).params = []) ∧
    ((cookieEnvelope "https://nwcd/" "torrent" Option.none Option.none []).url =
        "https://nwcd/ajax.php" ∧
      ("action", PyVal.str "torrent") ∈
        (cookieEnvelope "https://nwcd/" "torrent" Option.none Option.none []).params) := by
  refine ⟨(endpoint_routing "https://red/" "torrent" Option.none Option.none [("id", .int 5)]).1,
    (endpoint_routing "https://nwcd/" "upload" Option.none Option.none []).2.1 (Or.inl rfl),
    (endpoint_routing "https://nwcd/" "torrent" Option.none Option.none []).2.2
      (by decide) (by decide)⟩

/-- C4 (code bug): the claim says a cookie-strategy upload whose final URL
contains `torrents.php` succeeds and returns that URL.  In the code the
classification step raises `RequestFailure('no json, no torrent')` on the
HTML redirect response before `upl_response_handler` can ever see it, so
the upload raises instead of returning the URL — evaluated here on a
successful redirect to a torrent page.  The second conjunct shows the
handler itself, applied to that response's URL and body as written, would
indeed return the URL. -/
theorem cookie_upload_result_bug :
    cookieUploader "https://site/"
        (fun _ => .ok
          { statusCode := 200, contentType := "text/html", content := [],
            jsonBody := Option.none, url := "https://site/torrents.php?id=7&torrentid=42",
            text := "<html></html>", setCookies := [] })
        [("title", .str "x")] Option.none =
      (cookieUploadEnv "https://site/" [("title", .str "x")] Option.none,
        .error (.requestFailure (.str "no json, no torrent"))) ∧
    cookieUplResponseHandler "https://site/torrents.php?id=7&torrentid=42" "<html></html>" =
      .ok "https://site/torrents.php?id=7&torrentid=42" := by
  exact ⟨rfl, rfl⟩

/-- C9: `get_riplog` returns the base64-decoded log bytes when their
SHA-256 hex digest equals the response's `log_sha256` field, and fails
with the integrity error (the code's `assert`) on a mismatch, returning
nothing. -/
theorem riplog_integrity_check (baseUrl : String)
    (transport : Issued → Except ApiError HttpResponse)
    (b64decode : String → List Nat) (sha256hex : List Nat → String)
    (torId logId : Int) (r : HttpResponse) (d : List (String × PyVal)) (s c : String)
    (ht : transport (riplogEnv baseUrl torId logId) = .ok r)
    (hc : classify r = .ok (.dict d))
    (hl : lookupAssoc d "log" = Option.some (.str s))
    (hsha : lookupAssoc d "log_sha256" = Option.some (.str c)) :
    (sha256hex (b64decode s) = c →
      getRiplog baseUrl transport b64decode sha256hex torId logId =
        (riplogEnv baseUrl torId logId, .ok (b64decode s))) ∧
    (sha256hex (b64decode s) ≠ c →
      getRiplog baseUrl transport b64decode sha256hex torId logId =
        (riplogEnv baseUrl torId logId, .error .integrityError)) := by
  constructor
  · intro he
    simp [getRiplog, doRequest, ht, hc, pyIndex, hl, hsha, he]
  · intro he
    simp [getRiplog, doRequest, ht, hc, pyIndex, hl, hsha, he]

/-- Witness for C9: a matching and a mismatching checksum capability on the
same response. -/
theorem riplog_integrity_check_witness :
    getRiplog "https://ops/" (fun _ => .ok opsLogResponse)
        (fun _ => [65, 66, 67]) (fun _ => "h256") 5 9 =
      (riplogEnv "https://ops/" 5 9, .ok [65, 66, 67]) ∧
    getRiplog "https://ops/" (fun _ => .ok opsLogResponse)
        (fun _ => [65, 66, 67]) (fun _ => "nope") 5 9 =
      (riplogEnv "https://ops/" 5 9, .error .integrityError) := by
  constructor
  · exact (riplog_integrity_check "https://ops/" (fun _ => .ok opsLogResponse)
      (fun _ => [65, 66, 67]) (fun _ => "h256") 5 9 opsLogResponse
      [("log", .str "QUJD"), ("log_sha256", .str "h256")] "QUJD" "h256"
      rfl rfl rfl rfl).1 rfl
  · exact (riplog_integrity_check "https://ops/" (fun _ => .ok opsLogResponse)
      (fun _ => [65, 66, 67]) (fun _ => "nope") 5 9 opsLogResponse
      [("log", .str "QUJD"), ("log_sha256", .str "h256")] "QUJD" "h256"
      rfl rfl rfl rfl).2 (by decide)

/-- The envelope handed to the transport by `_login` is the login envelope,
whatever the transport then does. -/
theorem cookieLogin_fst (baseUrl : String)
    (transport : Issued → Except ApiError HttpResponse)
    (credSource : Unit → String × String) :
    (cookieLogin baseUrl transport credSource).1 =
      loginEnv baseUrl (credSource ()).1 (credSource ()).2 := by
  unfold cookieLogin
  cases htr : transport (loginEnv baseUrl (credSource ()).1 (credSource ()).2) with
  | error e => simp [htr]
  | ok r =>
    cases hcl : classify r with
    | error e2 => simp [htr, hcl]
    | ok v =>
      simp only [htr, hcl]
      split <;> rfl

/-- C6: a persisted session cookie whose expiry is in the past is never
accepted — authentication falls through to a login request — while one
whose expiry is in the future is accepted as complete authentication with
no network call issued. -/
theorem session_cookie_expiry_check (baseUrl : String)
    (transport : Issued → Except ApiError HttpResponse)
    (credSource : Unit → String × String) (jar : List Cookie) (e now : ℚ)
    (hs : (jar.filter (fun c => c.name = "session")).head? =
      Option.some { name := "session", expires := Option.some e }) :
    (e < now →
      loadCookie (Option.some jar) now = false ∧
      (cookieAuthenticate baseUrl transport credSource (Option.some jar) now).1 =
        [loginEnv baseUrl (credSource ()).1 (credSource ()).2]) ∧
    (now < e →
      loadCookie (Option.some jar) now = true ∧
      (cookieAuthenticate baseUrl transport credSource (Option.some jar) now).1 = []) := by
  constructor
  · intro hlt
    have hload : loadCookie (Option.some jar) now = false := by
      simp [loadCookie, hs, cookieIsExpired, le_of_lt hlt]
    refine ⟨hload, ?_⟩
    simp only [cookieAuthenticate, hload, Bool.false_eq_true, if_false]
    simp [cookieLogin_fst baseUrl transport credSource]
  · intro hlt
    have hnle : ¬ e ≤ now := not_le.mpr hlt
    have hload : loadCookie (Option.some jar) now = true := by
      simp [loadCookie, hs, cookieIsExpired, hnle]
    exact ⟨hload, by simp [cookieAuthenticate, hload]⟩

/-- Witness for C6: a session cookie expiring at time 5, checked at time 10
(past, rejected, login issued) and at time 1 (future, accepted, no network
call). -/
theorem session_cookie_expiry_check_witness :
    loadCookie (Option.some [{ name := "session", expires := Option.some (5 : ℚ) }]) 10 =
      false ∧
    (cookieAuthenticate "https://nwcd/" (fun _ => .error .connectionError)
        (fun _ => ("u", "p"))
        (Option.some [{ name := "session", expires := Option.some (5 : ℚ) }]) 10).1 =
      [loginEnv "https://nwcd/" "u" "p"] ∧
    loadCookie (Option.some [{ name := "session", expires := Option.some (5 : ℚ) }]) 1 =
      true ∧
    (cookieAuthenticate "https://nwcd/" (fun _ => .error .connectionError)
        (fun _ => ("u", "p"))
        (Option.some [{ name := "session", expires := Option.some (5 : ℚ) }]) 1).1 = [] := by
  have h10 := (session_cookie_expiry_check "https://nwcd/" (fun _ => .error .connectionError)
    (fun _ => ("u", "p")) [{ name := "session", expires := Option.some (5 : ℚ) }] 5 10
    rfl).1 (by norm_num)
  have h1 := (session_cookie_expiry_check "https://nwcd/" (fun _ => .error .connectionError)
    (fun _ => ("u", "p")) [{ name := "session", expires := Option.some (5 : ℚ) }] 5 1
    rfl).2 (by norm_num)
  exact ⟨h10.1, h10.2, h1.1, h1.2⟩

/-- C7: the login path takes the credentials from the supplied
credential-source capability, issues a `POST` to the dedicated `login`
path carrying username, password and the keep-logged-in flag (the jar
having been cleared, the session state is exactly what the response
sets), fails with the authentication error when the response set no
`session` cookie, and on success persists the jar. -/
theorem cookie_login_flow (baseUrl : String)
    (transport : Issued → Except ApiError HttpResponse)
    (credSource : Unit → String × String) (r : HttpResponse) (v : PyVal)
    (ht : transport (loginEnv baseUrl (credSource ()).1 (credSource ()).2) = .ok r)
    (hcl : classify r = .ok v) :
    (cookieLogin baseUrl transport credSource).1 =
      loginEnv baseUrl (credSource ()).1 (credSource ()).2 ∧
    (loginEnv baseUrl (credSource ()).1 (credSource ()).2).method = "POST" ∧
    (loginEnv baseUrl (credSource ()).1 (credSource ()).2).url =
      baseUrl ++ "login" ++ ".php" ∧
    (loginEnv baseUrl (credSource ()).1 (credSource ()).2).dataBody =
      Option.some
        [("username", .str (credSource ()).1), ("password", .str (credSource ()).2),
          ("keeplogged", .str "1")] ∧
    ((r.setCookies.filter (fun c => c.name = "session")).isEmpty = true →
      (cookieLogin baseUrl transport credSource).2 = .error .authenticationError) ∧
    ((r.setCookies.filter (fun c => c.name = "session")).isEmpty = false →
      (cookieLogin baseUrl transport credSource).2 = .ok (r.setCookies, true)) := by
  refine ⟨cookieLogin_fst baseUrl transport credSource, rfl, rfl, rfl, ?_, ?_⟩
  · intro hempty
    simp [cookieLogin, ht, hcl, hempty]
  · intro hempty
    simp [cookieLogin, ht, hcl, hempty]

/-- Witness for C7: one login response that sets no session cookie (fatal)
and one that does (persisted). -/
theorem cookie_login_flow_witness :
    (cookieLogin "https://nwcd/" (fun _ => .ok loginRespNoCookie) (fun _ => ("u", "p"))).2 =
      .error .authenticationError ∧
    (cookieLogin "https://nwcd/" (fun _ => .ok loginRespWithCookie) (fun _ => ("u", "p"))).2 =
      .ok ([{ name := "session", expires := Option.some (99 : ℚ) }], true) ∧
    (loginEnv "https://nwcd/" "u" "p").method = "POST" := by
  refine ⟨?_, ?_, ?_⟩
  · exact (cookie_login_flow "https://nwcd/" (fun _ => .ok loginRespNoCookie)
      (fun _ => ("u", "p")) loginRespNoCookie .null rfl rfl).2.2.2.2.1 rfl
  · exact (cookie_login_flow "https://nwcd/" (fun _ => .ok loginRespWithCookie)
      (fun _ => ("u", "p")) loginRespWithCookie .null rfl rfl).2.2.2.2.2 rfl
  · exact (cookie_login_flow "https://nwcd/" (fun _ => .ok loginRespNoCookie)
      (fun _ => ("u", "p")) loginRespNoCookie .null rfl rfl).2.1

/-- C1: a RED upload flagged `unknown=true` whose primary request yields a
success envelope with `torrentid` t and `groupid` g returns
`(t, g, baseUrl + "torrents.php?id=g&torrentid=t")`, attempts the
follow-up `torrentedit` request, and swallows a `RequestFailure` or HTTP
error raised by that follow-up, leaving the returned triple unchanged. -/
theorem red_upload_unknown_followup (baseUrl : String)
    (transport : Issued → Except ApiError HttpResponse)
    (data : List (String × PyVal)) (files : Option (List String))
    (r1 : HttpResponse) (p : List (String × PyVal)) (t g : Int)
    (hunk : pyTruthy ((lookupAssoc data "unknown").getD .null) = true)
    (h1 : transport (redUploadEnv baseUrl (removeAssoc data "unknown") files) = .ok r1)
    (h2 : classify r1 = .ok (.dict p))
    (htid : lookupAssoc p "torrentid" = Option.some (.int t))
    (hgid : lookupAssoc p "groupid" = Option.some (.int g))
    (hedit : ∀ err, doRequest transport (redEditEnv baseUrl (.int t)) = .error err →
      caughtByEditHandler err = true) :
    redUploader baseUrl transport data files =
      ([redUploadEnv baseUrl (removeAssoc data "unknown") files, redEditEnv baseUrl (.int t)],
        .ok (.int t, .int g,
          baseUrl ++ "torrents.php?id=" ++ toString g ++ "&torrentid=" ++ toString t)) := by
  simp only [redUploader, hunk, if_true, doRequest, h1, h2, redUplResponseHandler, pyGet,
    htid, hgid, Option.getD_some]
  cases hres : doRequest transport (redEditEnv baseUrl (.int t)) with
  | error err =>
    have hc := hedit err hres
    simp only [doRequest] at hres
    simp [hres, hc, pyStr]
  | ok val =>
    simp only [doRequest] at hres
    simp [hres, pyStr]

/-- Witness for C1: a transport that answers the primary upload with a
success envelope `torrentid=42, groupid=7` and fails the follow-up edit
with a `RequestFailure`; the upload still returns the full triple with
both envelopes issued. -/
theorem red_upload_unknown_followup_witness :
    redUploader "https://red/" redEditFailTransport
        [("unknown", .bool true), ("title", .str "x")] Option.none =
      ([redUploadEnv "https://red/" [("title", .str "x")] Option.none,
          redEditEnv "https://red/" (.int 42)],
        .ok (.int 42, .int 7, "https://red/torrents.php?id=7&torrentid=42")) := by
  have h := red_upload_unknown_followup "https://red/" redEditFailTransport
    [("unknown", .bool true), ("title", .str "x")] Option.none
    redUplResponse [("torrentid", .int 42), ("groupid", .int 7)] 42 7
    rfl rfl rfl rfl rfl
    (by
      intro err herr
      rw [show doRequest redEditFailTransport (redEditEnv "https://red/" (.int 42)) =
          .error (.requestFailure (.str "edit failed")) from rfl] at herr
      injection herr with herr2
      rw [← herr2]
      rfl)
  exact h.trans (by rfl)

/-! ## Rate limiter lemmas -/

/-- The limiter only ever delays: the sleep is never negative. -/
theorem sleepAmount_nonneg (oldest now : ℚ) : 0 ≤ sleepAmount oldest now := by
  unfold sleepAmount
  split
  · linarith
  · linarith

/-- The dispatch moment is at least ten seconds after the oldest retained
timestamp. -/
theorem sendMoment_ge (oldest now : ℚ) : oldest + 10 ≤ sendMoment oldest now := by
  unfold sendMoment sleepAmount
  split
  · linarith
  · next h => linarith [lt_of_not_le h]

/-- A capped append is an append followed by a drop of the overflow. -/
theorem dequeAppend_eq (cap : ℕ) (l : List ℚ) (x : ℚ) :
    dequeAppend cap l x = (l ++ [x]).drop (l.length + 1 - cap) := by
  unfold dequeAppend
  simp only [List.length_append, List.length_singleton]
  split
  · rfl
  · have h0 : l.length + 1 - cap = 0 := by omega
    rw [h0, List.drop_zero]

/-- A capped append never exceeds the capacity. -/
theorem length_dequeAppend_le (cap : ℕ) (l : List ℚ) (x : ℚ) :
    (dequeAppend cap l x).length ≤ cap := by
  rw [dequeAppend_eq cap l x, List.length_drop, List.length_append,
    List.length_singleton]
  omega

/-- Folding capped appends keeps only the newest `cap` entries: the result
is the concatenation with the overflow dropped from the front. -/
theorem foldl_dequeAppend (cap : ℕ) (recs : List ℚ) : ∀ l : List ℚ, l.length ≤ cap →
    recs.foldl (dequeAppend cap) l = (l ++ recs).drop (l.length + recs.length - cap) := by
  induction recs with
  | nil =>
    intro l h
    rw [List.foldl_nil, List.append_nil, List.length_nil]
    have h0 : l.length + 0 - cap = 0 := by omega
    rw [h0, List.drop_zero]
  | cons r rs ih =>
    intro l h
    rw [List.foldl_cons, ih (dequeAppend cap l r) (length_dequeAppend_le cap l r),
      dequeAppend_eq cap l r]
    rcases Nat.lt_or_ge l.length cap with hlt | hge
    · have e1 : (l ++ [r]).drop (l.length + 1 - cap) = l ++ [r] := by
        have h0 : l.length + 1 - cap = 0 := by omega
        rw [h0, List.drop_zero]
      rw [e1, List.append_assoc, List.singleton_append]
      congr 1
      simp only [List.length_append, List.length_singleton, List.length_cons,
        List.length_nil]
      omega
    · have hcapl : l.length = cap := by omega
      have ha : l.length + 1 - cap = 1 := by omega
      rw [ha]
      have hlen : ((l ++ [r]).drop 1).length = cap := by
        rw [List.length_drop, List.length_append, List.length_singleton]
        omega
      rw [hlen]
      have hb : cap + rs.length - cap = rs.length := by omega
      rw [hb]
      have hc : l.length + (r :: rs).length - cap = 1 + rs.length := by
        simp only [List.length_cons]
        omega
      rw [hc]
      have h1l : (1 : ℕ) ≤ (l ++ [r]).length := by
        simp only [List.length_append, List.length_singleton]
        omega
      rw [← List.drop_append_of_le_length h1l, List.drop_drop, List.append_assoc,
        List.singleton_append]

/-- After exactly `cap` recorded requests the seed sentinel has been
evicted and the deque holds precisely those `cap` timestamps. -/
theorem statesAfter_full (cap : ℕ) (recs : List ℚ) (h1 : 1 ≤ cap)
    (h2 : recs.length = cap) : statesAfter cap recs = recs := by
  unfold statesAfter
  rw [foldl_dequeAppend cap recs [0] (by simpa using h1)]
  have h0 : ([(0 : ℚ)]).length + recs.length - cap = 1 := by
    rw [List.length_singleton, h2]
    omega
  rw [h0, List.singleton_append, List.drop_one, List.tail_cons]

/-- C5: for N = the request window limit, in a serial run of N+1 requests
the (N+1)-th dispatch happens at least 10 seconds after the oldest
retained timestamp — which by then is the recorded time of request 1 — so
requests 1 and N+1 are at least 10 seconds apart; and the limiter sleeps
exactly `10 - (now - oldest)` when `now - oldest <= 10`, proceeds
immediately otherwise, and can only delay, never fail. -/
theorem rate_limit_window (cap : ℕ) (events : List (ℚ × ℚ))
    (hcap : 1 ≤ cap) (hlen : events.length = cap + 1) (hser : SerialRun cap events) :
    ((events.map Prod.snd).getD 0 0) + 10 ≤ dispatchMoment cap events cap ∧
    dispatchMoment cap events 0 + 10 ≤ dispatchMoment cap events cap ∧
    (∀ oldest now, 0 ≤ sleepAmount oldest now) ∧
    (∀ oldest now, now - oldest ≤ 10 → sleepAmount oldest now = 10 - (now - oldest)) ∧
    (∀ oldest now, ¬ now - oldest ≤ 10 → sleepAmount oldest now = 0) := by
  have htlen : ((events.take cap).map Prod.snd).length = cap := by
    rw [List.length_map, List.length_take, hlen]
    omega
  have hstates := statesAfter_full cap ((events.take cap).map Prod.snd) hcap htlen
  obtain ⟨m, rfl⟩ : ∃ m, cap = m + 1 := ⟨cap - 1, by omega⟩
  obtain ⟨e0, es, rfl⟩ : ∃ e0 es, events = e0 :: es := by
    cases events with
    | nil => simp at hlen
    | cons a as => exact ⟨a, as, rfl⟩
  have hkey : (((e0 :: es).take (m + 1)).map Prod.snd).headD 0 = e0.2 := by
    rw [List.take_succ_cons, List.map_cons, List.headD_cons]
  have hfst : ((e0 :: es).map Prod.snd).getD 0 0 = e0.2 := by
    rw [List.map_cons, List.getD_cons_zero]
  have hmain : ((e0 :: es).map Prod.snd).getD 0 0 + 10 ≤
      dispatchMoment (m + 1) (e0 :: es) (m + 1) := by
    simp only [dispatchMoment]
    rw [hstates, hkey, hfst]
    exact sendMoment_ge e0.2 _
  refine ⟨hmain, ?_, sleepAmount_nonneg, ?_, ?_⟩
  · have h0 := hser 0 (by rw [hlen]; omega)
    rw [hfst] at hmain
    rw [hfst] at h0
    linarith
  · intro oldest now h
    unfold sleepAmount
    rw [if_pos h]
  · intro oldest now h
    unfold sleepAmount
    rw [if_neg h]

/-- Witness for C5 with a window limit of 1 and two requests: the clock
reads 0 at the first request (dispatch at 10, recorded at 11) and 12 at
the second (dispatch at 21, at least 10 after both the retained timestamp
11 and the first dispatch). -/
theorem rate_limit_window_witness :
    ((([((0 : ℚ), (11 : ℚ)), (12, 21)]).map Prod.snd).getD 0 0) + 10 ≤
      dispatchMoment 1 [(0, 11), (12, 21)] 1 ∧
    dispatchMoment 1 [(0, 11), (12, 21)] 0 + 10 ≤ dispatchMoment 1 [(0, 11), (12, 21)] 1 ∧
    (∀ oldest now, 0 ≤ sleepAmount oldest now) ∧
    (∀ oldest now, now - oldest ≤ 10 → sleepAmount oldest now = 10 - (now - oldest)) ∧
    (∀ oldest now, ¬ now - oldest ≤ 10 → sleepAmount oldest now = 0) :=
  rate_limit_window 1 [(0, 11), (12, 21)] (by decide) (by decide)
    (by
      unfold SerialRun
      intro i hi
      have hi2 : i < 2 := by simpa using hi
      interval_cases i
      · norm_num [dispatchMoment, statesAfter, sendMoment, sleepAmount]
      · norm_num [dispatchMoment, statesAfter, dequeAppend, sendMoment, sleepAmount])

end Gazelle
